import Mathlib

/-!
Verification of the xiaozhi-go voice-assistant client core (main.go and its
keyboard variant). The session state machine, playback buffer, outbound
message construction, audio callback and receive loop are embedded as pure
Lean functions; the websocket transport is modelled by explicit success
flags on writes and by an inbound event type for reads.
-/

/-- Device states. In the Go source `State` is a string type whose only
assigned values are the five constants below, so an inductive type is a
faithful embedding. -/
inductive State where
  | Idle
  | Connecting
  | Connected
  | Listening
  | Speaking
deriving DecidableEq, Repr

/-- Audio parameter block (struct AudioParams in main.go). -/
structure AudioParams where
  format : String
  sample_rate : Int
  channels : Int
  frame_duration : Int
deriving DecidableEq, Repr

/-- Websocket control message (struct Message in main.go). Go zero values
stand for absent fields: 0 for ints, the empty string for strings, the
all-zero `AudioParams` for the struct field, `true` nilness flags for the
two interface-typed fields, and the empty list for the slice field. -/
structure Message where
  type : String
  version : Int := 0
  transport : String := ""
  audio_params : AudioParams := ⟨"", 0, 0, 0⟩
  session_id : String := ""
  state : String := ""
  mode : String := ""
  text : String := ""
  reason : String := ""
  descriptorsNil : Bool := true
  statesNil : Bool := true
  commands : List String := []
  emotion : String := ""
deriving DecidableEq, Repr

/-- The ordered list of JSON keys that Go encoding/json emits for a
Message, following each field's struct tag. A field tagged `omitempty` is
dropped when its value is empty in the Go sense: 0 for ints, "" for
strings, nil for interfaces and slices. encoding/json never treats a
struct value as empty, so the `audio_params` field is emitted for every
message even though its tag says omitempty. -/
def messageKeys (m : Message) : List String :=
  ["type"]
  ++ (if m.version = 0 then [] else ["version"])
  ++ (if m.transport = "" then [] else ["transport"])
  ++ ["audio_params"]
  ++ (if m.session_id = "" then [] else ["session_id"])
  ++ (if m.state = "" then [] else ["state"])
  ++ (if m.mode = "" then [] else ["mode"])
  ++ (if m.text = "" then [] else ["text"])
  ++ (if m.reason = "" then [] else ["reason"])
  ++ (if m.descriptorsNil then [] else ["descriptors"])
  ++ (if m.statesNil then [] else ["states"])
  ++ (if m.commands = [] then [] else ["commands"])
  ++ (if m.emotion = "" then [] else ["emotion"])

/-- Configuration constants from main.go. -/
def sessionID : String := "session_123"

def sampleRate : Nat := 16000

def frameDurationMs : Nat := 60

/-- Samples per audio frame: sampleRate * frameDurationMs / 1000. -/
def samplesPerFrame : Nat := sampleRate * frameDurationMs / 1000

/-- Settle delay before the auto-listen event fires, from the
`time.Sleep(500 * time.Millisecond)` in the keyboard variant's tts/stop
handler. -/
def settleDelayMs : Nat := 500

/-- One frame sent to the server: a JSON text frame or a binary
opus-encoded audio frame. -/
inductive Outbound where
  | text (m : Message)
  | binary (payload : List Int)
deriving DecidableEq, Repr

/-- The mutable client state the claims range over: `currentState` and the
playback buffer `audioOut.data` (a queue of PCM frames; samples are int16
values carried as Int). -/
structure ClientState where
  currentState : State
  audioOut : List (List Int)
deriving DecidableEq, Repr

/-- The listen start message built by startListening. -/
def listenStartMsg : Message :=
  { type := "listen", session_id := sessionID, state := "start", mode := "manual" }

/-- The listen stop message built by stopListening. -/
def listenStopMsg : Message :=
  { type := "listen", session_id := sessionID, state := "stop", mode := "manual" }

/-- The wake-word message built by sendWakeWord. -/
def wakeMsg (t : String) : Message :=
  { type := "listen", session_id := sessionID, state := "detect", text := t }

/-- The abort message built by abortSession. -/
def abortMsg (reason : String) : Message :=
  { type := "abort", session_id := sessionID, reason := reason }

/-- The iot states message built by sendIoTStates (its states map is
non-nil). -/
def iotStatesMsg : Message :=
  { type := "iot", session_id := sessionID, statesNil := false }

/-- startListening: guarded on Connected; builds the listen/start message,
writes it (writeOk models whether conn.WriteJSON succeeds), and only on a
successful write assigns Listening. Returns the new client state and the
messages successfully written. -/
def startListening (writeOk : Bool) (s : ClientState) : ClientState × List Outbound :=
  if s.currentState ≠ State.Connected then (s, [])
  else if writeOk then ({ s with currentState := State.Listening }, [Outbound.text listenStartMsg])
  else (s, [])

/-- stopListening: guarded on Listening; on a successful write assigns
Connected. -/
def stopListening (writeOk : Bool) (s : ClientState) : ClientState × List Outbound :=
  if s.currentState ≠ State.Listening then (s, [])
  else if writeOk then ({ s with currentState := State.Connected }, [Outbound.text listenStopMsg])
  else (s, [])

/-- sendWakeWord: guarded on Listening; sends listen/detect and never
changes the state. -/
def sendWakeWord (writeOk : Bool) (t : String) (s : ClientState) : ClientState × List Outbound :=
  if s.currentState ≠ State.Listening then (s, [])
  else if writeOk then (s, [Outbound.text (wakeMsg t)])
  else (s, [])

/-- abortSession: unguarded; on a successful write assigns Connected from
any prior state. -/
def abortSession (writeOk : Bool) (reason : String) (s : ClientState) : ClientState × List Outbound :=
  if writeOk then ({ s with currentState := State.Connected }, [Outbound.text (abortMsg reason)])
  else (s, [])

/-- sendIoTStates: unguarded, no state change. -/
def sendIoTStates (writeOk : Bool) (s : ClientState) : ClientState × List Outbound :=
  if writeOk then (s, [Outbound.text iotStatesMsg])
  else (s, [])

/-- handleServerMessage: dispatch on msg.Type (and msg.State for tts).
hello with transport websocket sets Connected; tts/start sets Speaking and
clears the playback buffer; tts/stop sets Connected. All three assignments
are unconditional in the prior state. stt, tts/sentence_start, iot and llm
only log. The returned Bool records whether the keyboard variant's
tts/stop handler spawned the delayed re-listen event (500 ms sleep, then a
send on listeningChan). -/
def handleServerMessage (m : Message) (s : ClientState) : ClientState × Bool :=
  if m.type = "hello" then
    if m.transport = "websocket" then ({ s with currentState := State.Connected }, false)
    else (s, false)
  else if m.type = "tts" then
    if m.state = "start" then
      ({ s with currentState := State.Speaking, audioOut := [] }, false)
    else if m.state = "stop" then
      ({ s with currentState := State.Connected }, true)
    else (s, false)
  else (s, false)

/-- Result of one audio callback invocation: the client state afterwards,
the contents of the out slice when the callback returns, and the binary
frames successfully written. -/
structure CallbackResult where
  state : ClientState
  out : List Int
  sent : List Outbound
deriving DecidableEq, Repr

/-- Go's builtin copy(dst, src): overwrites the first min(len dst, len src)
elements of dst with those of src and keeps the rest of dst. -/
def goCopy (dst src : List Int) : List Int :=
  src.take (min dst.length src.length) ++ dst.drop (min dst.length src.length)

/-- audioCallback. Capture path: when Listening, encode the input frame
(encodeOk models enc.Encode's error, encData its output bytes) and write
it as a binary frame (sendOk models conn.WriteMessage's error); on an
encode error the Go function returns at once, skipping the output section,
so `out` keeps whatever the caller passed in. Playback path: when Speaking
with a non-empty buffer, copy the head frame into out and drop it;
otherwise zero every sample of out. -/
def audioCallback (encodeOk sendOk : Bool) (encData : List Int)
    (s : ClientState) (out : List Int) : CallbackResult :=
  if s.currentState = State.Listening ∧ encodeOk = false then
    ⟨s, out, []⟩
  else
    let sent := if s.currentState = State.Listening ∧ sendOk = true
      then [Outbound.binary encData] else []
    if s.currentState = State.Speaking then
      match s.audioOut with
      | f :: rest => ⟨{ s with audioOut := rest }, goCopy out f, sent⟩
      | [] => ⟨s, List.replicate out.length 0, sent⟩
    else ⟨s, List.replicate out.length 0, sent⟩

/-- One inbound transport event seen by the receive loop: a failed read, a
text frame (none models a JSON parse failure, some m the parsed message),
a binary frame (decodeOk models dec.Decode's error, pcm the decoded
frame), or a close frame. -/
inductive InboundEvent where
  | readFailure
  | textFrame (parsed : Option Message)
  | binaryFrame (decodeOk : Bool) (pcm : List Int)
  | closeFrame
deriving DecidableEq, Repr

/-- Whether the receive loop keeps iterating after an event. -/
inductive LoopAction where
  | next
  | halt
deriving DecidableEq, Repr

/-- One iteration of receiveMessages. A read failure sets Idle and returns;
a malformed text frame logs and continues; a parsed text frame is handed to
handleServerMessage; a binary frame that decodes is appended to the
playback buffer only while Speaking; a close frame returns without
touching the state. -/
def recvStep (e : InboundEvent) (s : ClientState) : ClientState × LoopAction :=
  match e with
  | InboundEvent.readFailure => ({ s with currentState := State.Idle }, LoopAction.halt)
  | InboundEvent.textFrame none => (s, LoopAction.next)
  | InboundEvent.textFrame (some m) => ((handleServerMessage m s).1, LoopAction.next)
  | InboundEvent.binaryFrame false _ => (s, LoopAction.next)
  | InboundEvent.binaryFrame true pcm =>
      (if s.currentState = State.Speaking
        then { s with audioOut := s.audioOut ++ [pcm] } else s, LoopAction.next)
  | InboundEvent.closeFrame => (s, LoopAction.halt)

/-- The receive loop over a list of inbound events, stopping early when an
iteration returns. -/
def recvLoop (events : List InboundEvent) (s : ClientState) : ClientState :=
  match events with
  | [] => s
  | e :: rest =>
      match recvStep e s with
      | (s', LoopAction.next) => recvLoop rest s'
      | (s', LoopAction.halt) => s'

/-- autoListenController's reaction to one event on listeningChan: if the
state is Connected at fire time it calls startListening (which performs
the Connected to Listening transition), otherwise it does nothing. -/
def autoListenFire (writeOk : Bool) (s : ClientState) : ClientState × List Outbound :=
  if s.currentState = State.Connected then startListening writeOk s
  else (s, [])

/-- A trigger: one inbound transport event, one user operation, one
connect attempt phase, one send of hello, one fire of the auto-listen
event, or an explicit close (closeAudioChannel, conditioned on conn being
non-nil; it sets Idle whether or not the close write succeeds). -/
inductive Trigger where
  | inbound (e : InboundEvent)
  | userStartListening (writeOk : Bool)
  | userStopListening (writeOk : Bool)
  | userWakeWord (writeOk : Bool) (t : String)
  | userAbort (writeOk : Bool) (reason : String)
  | userIoTStates (writeOk : Bool)
  | sendHelloEv (writeOk : Bool)
  | connectBegin
  | connectSucceed
  | connectFail
  | autoListenEvent (writeOk : Bool)
  | userClose (connPresent : Bool)
deriving DecidableEq, Repr

/-- The state change caused by one trigger. connectWebSocket is the
sequence connectBegin then connectSucceed or connectFail; sendHello never
changes the state. -/
def stepTrigger (t : Trigger) (s : ClientState) : ClientState :=
  match t with
  | Trigger.inbound e => (recvStep e s).1
  | Trigger.userStartListening w => (startListening w s).1
  | Trigger.userStopListening w => (stopListening w s).1
  | Trigger.userWakeWord w txt => (sendWakeWord w txt s).1
  | Trigger.userAbort w r => (abortSession w r s).1
  | Trigger.userIoTStates w => (sendIoTStates w s).1
  | Trigger.sendHelloEv _ => s
  | Trigger.connectBegin => { s with currentState := State.Connecting }
  | Trigger.connectSucceed => { s with currentState := State.Connected }
  | Trigger.connectFail => { s with currentState := State.Idle }
  | Trigger.autoListenEvent w => (autoListenFire w s).1
  | Trigger.userClose connPresent =>
      if connPresent then { s with currentState := State.Idle } else s

/-- Run a sequence of triggers from a client state. -/
def runTriggers (ts : List Trigger) (s : ClientState) : ClientState :=
  match ts with
  | [] => s
  | t :: rest => runTriggers rest (stepTrigger t s)

/-- The five protocol states. -/
def stateUniverse : List State :=
  [State.Idle, State.Connecting, State.Connected, State.Listening, State.Speaking]

/-- The outputs emitted by n successive audio callback invocations, each
passed a fresh out slice of the given contents. -/
def drainOuts : Nat → List Int → ClientState → List (List Int)
  | 0, _, _ => []
  | n + 1, out, s =>
      let r := audioCallback true true [] s out
      r.out :: drainOuts n out r.state

lemma mem_stateUniverse (st : State) : st ∈ stateUniverse := by
  cases st <;> simp [stateUniverse]

lemma goCopy_eq_of_length (out f : List Int) (h : f.length = out.length) :
    goCopy out f = f := by
  simp [goCopy, h]

lemma audioCallback_speaking_cons (eOk sOk : Bool) (d out f : List Int)
    (rest : List (List Int)) (s : ClientState)
    (h1 : s.currentState = State.Speaking) (h2 : s.audioOut = f :: rest) :
    audioCallback eOk sOk d s out = ⟨{ s with audioOut := rest }, goCopy out f, []⟩ := by
  simp [audioCallback, h1, h2]

lemma drainOuts_emits (out : List Int) (frames : List (List Int)) :
    ∀ s : ClientState, s.currentState = State.Speaking → s.audioOut = frames →
    (∀ f ∈ frames, f.length = out.length) →
    drainOuts frames.length out s = frames := by
  induction frames with
  | nil => intro s h1 h2 _; simp [drainOuts]
  | cons f rest ih =>
      intro s h1 h2 h3
      have hcall := audioCallback_speaking_cons true true [] out f rest s h1 h2
      have hcopy : goCopy out f = f :=
        goCopy_eq_of_length out f (h3 f (by simp))
      simp only [List.length_cons, drainOuts, hcall, hcopy]
      rw [ih { s with audioOut := rest } (by simp [h1]) rfl
          (fun g hg => h3 g (by simp [hg]))]

/-- C1: guarded sends are no-ops out of their precondition state: calling
startListening while currentState is not Connected, stopListening while
not Listening, or sendWakeWord while not Listening leaves the client state
(currentState and buffer) unchanged and writes no outbound message. -/
theorem c1_guarded_sends_are_noops (w : Bool) (t : String) (s : ClientState) :
    (s.currentState ≠ State.Connected → startListening w s = (s, []))
  ∧ (s.currentState ≠ State.Listening → stopListening w s = (s, []))
  ∧ (s.currentState ≠ State.Listening → sendWakeWord w t s = (s, [])) := by
  refine ⟨fun h => ?_, fun h => ?_, fun h => ?_⟩ <;>
    simp [startListening, stopListening, sendWakeWord, h]

/-- Witness for C1 at the Idle state. -/
theorem c1_witness :
    startListening true ⟨State.Idle, []⟩ = (⟨State.Idle, []⟩, [])
  ∧ stopListening true ⟨State.Idle, []⟩ = (⟨State.Idle, []⟩, [])
  ∧ sendWakeWord true "hi" ⟨State.Idle, []⟩ = (⟨State.Idle, []⟩, []) :=
  ⟨(c1_guarded_sends_are_noops true "hi" ⟨State.Idle, []⟩).1 (by decide),
   (c1_guarded_sends_are_noops true "hi" ⟨State.Idle, []⟩).2.1 (by decide),
   (c1_guarded_sends_are_noops true "hi" ⟨State.Idle, []⟩).2.2 (by decide)⟩

/-- C2 counterexample: a tts message with state start processed in Idle
moves currentState to Speaking, a change the section 4.1 table does not
contain (the claim allows that transition only from Connected or
Listening, and Idle is neither). -/
theorem c2_counterexample :
    (handleServerMessage { type := "tts", state := "start" } ⟨State.Idle, [[7]]⟩).1.currentState
      = State.Speaking
  ∧ State.Idle ≠ State.Connected ∧ State.Idle ≠ State.Listening := by
  decide

/-- C2 as amended: for every trigger sequence currentState stays inside
the five-state set, but the three inbound handlers are unconditional in
the prior state: hello with transport websocket sets Connected from any
state, tts/start sets Speaking (and clears the buffer) from any state,
tts/stop sets Connected from any state, and a read failure sets Idle from
any state. -/
theorem c2_state_machine :
    (∀ (ts : List Trigger) (s : ClientState), (runTriggers ts s).currentState ∈ stateUniverse)
  ∧ (∀ (m : Message) (s : ClientState), m.type = "hello" → m.transport = "websocket" →
       (handleServerMessage m s).1 = { s with currentState := State.Connected })
  ∧ (∀ (m : Message) (s : ClientState), m.type = "tts" → m.state = "start" →
       (handleServerMessage m s).1 = { s with currentState := State.Speaking, audioOut := [] })
  ∧ (∀ (m : Message) (s : ClientState), m.type = "tts" → m.state = "stop" →
       (handleServerMessage m s).1 = { s with currentState := State.Connected })
  ∧ (∀ s : ClientState, (recvStep InboundEvent.readFailure s).1.currentState = State.Idle) := by
  refine ⟨fun ts s => mem_stateUniverse _, fun m s h1 h2 => ?_,
    fun m s h1 h2 => ?_, fun m s h1 h2 => ?_, fun s => rfl⟩ <;>
    simp [handleServerMessage, h1, h2]

/-- Witness for C2's amended statement: hello moves Speaking (not just
Connecting) to Connected. -/
theorem c2_witness :
    (handleServerMessage { type := "hello", transport := "websocket" } ⟨State.Speaking, [[1]]⟩).1
      = ⟨State.Connected, [[1]]⟩ :=
  c2_state_machine.2.1 { type := "hello", transport := "websocket" } ⟨State.Speaking, [[1]]⟩ rfl rfl

/-- C3: immediately after handleServerMessage processes a tts message with
state start, currentState is Speaking and the playback buffer is empty,
for every prior buffer content and prior state. -/
theorem c3_tts_start_clears_buffer (m : Message) (s : ClientState)
    (h1 : m.type = "tts") (h2 : m.state = "start") :
    (handleServerMessage m s).1.currentState = State.Speaking
  ∧ (handleServerMessage m s).1.audioOut = [] := by
  simp [handleServerMessage, h1, h2]

/-- Witness for C3 with a non-empty prior buffer in Listening. -/
theorem c3_witness :
    (handleServerMessage { type := "tts", state := "start" }
        ⟨State.Listening, [[1], [2]]⟩).1.currentState = State.Speaking
  ∧ (handleServerMessage { type := "tts", state := "start" }
        ⟨State.Listening, [[1], [2]]⟩).1.audioOut = [] :=
  c3_tts_start_clears_buffer { type := "tts", state := "start" } ⟨State.Listening, [[1], [2]]⟩ rfl rfl

/-- C4 counterexample: with currentState Listening (so not Speaking, and
the claim demands an all-zero frame) and a failed encode, audioCallback
returns at once and the out slice keeps its prior contents instead of
being zeroed. -/
theorem c4_counterexample :
    audioCallback false true [] ⟨State.Listening, []⟩ [5] = ⟨⟨State.Listening, []⟩, [5], []⟩
  ∧ [(5 : Int)] ≠ List.replicate 1 0
  ∧ State.Listening ≠ State.Speaking := by
  decide

/-- C4 as amended: whenever currentState is not Speaking or the buffer is
empty, and the invocation is not a Listening one whose encode fails (in
that one case the callback returns early with out untouched), the callback
writes a fully silent output frame; send failures are still covered. -/
theorem c4_amended_silence (eOk sOk : Bool) (d : List Int) (s : ClientState) (out : List Int)
    (hq : s.currentState ≠ State.Speaking ∨ s.audioOut = [])
    (henc : ¬(s.currentState = State.Listening ∧ eOk = false)) :
    (audioCallback eOk sOk d s out).out = List.replicate out.length 0 := by
  unfold audioCallback
  rw [if_neg henc]
  by_cases hs : s.currentState = State.Speaking
  · rcases hq with h | h
    · exact absurd hs h
    · simp [hs, h]
  · simp [hs]

/-- Witness for C4's amended statement: Listening with a failed send still
yields a silent frame. -/
theorem c4_witness :
    (audioCallback true false [] ⟨State.Listening, [[3]]⟩ [7, 7]).out = List.replicate 2 0 :=
  c4_amended_silence true false [] ⟨State.Listening, [[3]]⟩ [7, 7]
    (Or.inl (by decide)) (by decide)

/-- C5: in Speaking with a non-empty buffer each callback invocation
removes exactly the head (oldest) frame, copies it to out, and shrinks the
buffer by one; and frames appended by the receive path in order A, B, C
are emitted by three successive invocations in order A, B, C. -/
theorem c5_fifo_dequeue :
    (∀ (eOk sOk : Bool) (d out f : List Int) (rest : List (List Int)) (s : ClientState),
       s.currentState = State.Speaking → s.audioOut = f :: rest →
       audioCallback eOk sOk d s out = ⟨{ s with audioOut := rest }, goCopy out f, []⟩
       ∧ (audioCallback eOk sOk d s out).state.audioOut.length + 1 = s.audioOut.length)
  ∧ (∀ (out A B C : List Int) (s : ClientState),
       s.currentState = State.Speaking →
       A.length = out.length → B.length = out.length → C.length = out.length →
       (recvStep (InboundEvent.binaryFrame true C)
         (recvStep (InboundEvent.binaryFrame true B)
           (recvStep (InboundEvent.binaryFrame true A)
             { s with audioOut := [] }).1).1).1.audioOut = [A, B, C]
       ∧ drainOuts 3 out
           (recvStep (InboundEvent.binaryFrame true C)
             (recvStep (InboundEvent.binaryFrame true B)
               (recvStep (InboundEvent.binaryFrame true A)
                 { s with audioOut := [] }).1).1).1 = [A, B, C]) := by
  constructor
  · intro eOk sOk d out f rest s h1 h2
    have hcall := audioCallback_speaking_cons eOk sOk d out f rest s h1 h2
    refine ⟨hcall, ?_⟩
    rw [hcall, h2]
    simp
  · intro out A B C s h1 hA hB hC
    have hbuf :
        (recvStep (InboundEvent.binaryFrame true C)
          (recvStep (InboundEvent.binaryFrame true B)
            (recvStep (InboundEvent.binaryFrame true A)
              { s with audioOut := [] }).1).1).1 = ⟨s.currentState, [A, B, C]⟩ := by
      simp [recvStep, h1]
    refine ⟨by rw [hbuf], ?_⟩
    rw [hbuf]
    have := drainOuts_emits out [A, B, C] ⟨s.currentState, [A, B, C]⟩ h1 rfl ?_
    · simpa using this
    · intro g hg
      simp only [List.mem_cons, List.not_mem_nil, or_false] at hg
      rcases hg with rfl | rfl | rfl
      · exact hA
      · exact hB
      · exact hC

/-- Witness for C5: a two-frame buffer loses its head to the out slice. -/
theorem c5_witness :
    audioCallback true true [] ⟨State.Speaking, [[1], [2]]⟩ [0]
      = ⟨⟨State.Speaking, [[2]]⟩, [1], []⟩ :=
  (c5_fifo_dequeue.1 true true [] [0] [1] [[2]] ⟨State.Speaking, [[1], [2]]⟩ rfl rfl).1

/-- C6: the listen, abort and iot messages all emit an audio_params key,
because Go encoding/json never treats a struct value as empty and so
ignores the omitempty tag on that field; version and transport are
omitted as the claim says. -/
theorem c6_audio_params_always_emitted :
    "audio_params" ∈ messageKeys listenStartMsg
  ∧ "audio_params" ∈ messageKeys (abortMsg "user_request")
  ∧ "audio_params" ∈ messageKeys iotStatesMsg
  ∧ "version" ∉ messageKeys listenStartMsg
  ∧ "transport" ∉ messageKeys listenStartMsg := by
  decide

/-- C7 counterexample: a failed listen/start write from Connected leaves
currentState Connected, not Idle, contrary to the claim that every write
failure forces Idle. -/
theorem c7_counterexample :
    (startListening false ⟨State.Connected, []⟩).1.currentState = State.Connected
  ∧ State.Connected ≠ State.Idle := by
  decide

/-- C7 as amended: a failed read in the receive loop forces currentState
to Idle and halts the loop, but a failed write (binary audio send in the
callback or any outbound control send) leaves currentState exactly as it
was; the callback and the send helpers merely log and carry on. -/
theorem c7_read_failure_forces_idle (eOk : Bool) (d : List Int) (t r : String)
    (s : ClientState) (out : List Int) :
    recvStep InboundEvent.readFailure s = ({ s with currentState := State.Idle }, LoopAction.halt)
  ∧ (startListening false s).1 = s
  ∧ (stopListening false s).1 = s
  ∧ (sendWakeWord false t s).1 = s
  ∧ (abortSession false r s).1 = s
  ∧ (audioCallback eOk false d s out).state.currentState = s.currentState := by
  refine ⟨rfl, ?_, ?_, ?_, ?_, ?_⟩
  · simp [startListening]
  · simp [stopListening]
  · simp [sendWakeWord]
  · simp [abortSession]
  · by_cases h1 : s.currentState = State.Listening ∧ eOk = false
    · simp [audioCallback, h1]
    · by_cases h2 : s.currentState = State.Speaking
      · rcases haud : s.audioOut with _ | ⟨f, rest⟩ <;> simp [audioCallback, h1, h2, haud]
      · simp [audioCallback, h1, h2]

/-- C8: processing tts/stop while in Speaking sets Connected and schedules
the delayed re-listen event (the settle delay is the fixed 500 ms); when
the event fires, the controller performs exactly one Connected to
Listening transition with exactly one listen/start send if currentState is
still Connected at fire time, and leaves the state untouched with no send
if it has changed away from Connected in the interim. -/
theorem c8_auto_listen (m : Message) (s s' : ClientState)
    (h1 : m.type = "tts") (h2 : m.state = "stop")
    (_h3 : s.currentState = State.Speaking) :
    handleServerMessage m s = ({ s with currentState := State.Connected }, true)
  ∧ settleDelayMs = 500
  ∧ (s'.currentState = State.Connected →
       autoListenFire true s'
         = ({ s' with currentState := State.Listening }, [Outbound.text listenStartMsg]))
  ∧ (s'.currentState ≠ State.Connected → autoListenFire true s' = (s', [])) := by
  refine ⟨?_, rfl, fun h => ?_, fun h => ?_⟩
  · simp [handleServerMessage, h1, h2]
  · simp [autoListenFire, startListening, h]
  · simp [autoListenFire, h]

/-- Witness for C8: tts/stop from Speaking, then one fire while Connected
and one fire while Listening. -/
theorem c8_witness :
    handleServerMessage { type := "tts", state := "stop" } ⟨State.Speaking, [[4]]⟩
      = (⟨State.Connected, [[4]]⟩, true)
  ∧ autoListenFire true ⟨State.Connected, []⟩
      = (⟨State.Listening, []⟩, [Outbound.text listenStartMsg])
  ∧ autoListenFire true ⟨State.Listening, []⟩ = (⟨State.Listening, []⟩, []) :=
  ⟨(c8_auto_listen { type := "tts", state := "stop" } ⟨State.Speaking, [[4]]⟩
      ⟨State.Connected, []⟩ rfl rfl rfl).1,
   (c8_auto_listen { type := "tts", state := "stop" } ⟨State.Speaking, [[4]]⟩
      ⟨State.Connected, []⟩ rfl rfl rfl).2.2.1 rfl,
   (c8_auto_listen { type := "tts", state := "stop" } ⟨State.Speaking, [[4]]⟩
      ⟨State.Listening, []⟩ rfl rfl rfl).2.2.2 (by decide)⟩

/-- C9: an inbound text frame that fails JSON parsing leaves currentState
and the playback buffer unchanged and keeps the loop iterating, so a
subsequent valid frame is still dispatched to handleServerMessage. -/
theorem c9_malformed_frame_skipped (s : ClientState) (m : Message) (rest : List InboundEvent) :
    recvStep (InboundEvent.textFrame none) s = (s, LoopAction.next)
  ∧ recvLoop (InboundEvent.textFrame none :: rest) s = recvLoop rest s
  ∧ recvLoop [InboundEvent.textFrame none, InboundEvent.textFrame (some m)] s
      = (handleServerMessage m s).1 := by
  refine ⟨rfl, ?_, ?_⟩ <;> simp [recvLoop, recvStep]

/-- C10: in startListening, stopListening and abortSession the state
assignment comes after the write, so an invocation whose write fails
leaves the client state exactly what it was before the call. -/
theorem c10_failed_write_is_atomic (s : ClientState) (r : String) :
    (startListening false s).1 = s
  ∧ (stopListening false s).1 = s
  ∧ (abortSession false r s).1 = s := by
  refine ⟨?_, ?_, ?_⟩ <;> simp [startListening, stopListening, abortSession]
